import Mathlib

/-!
Shallow embedding of the PDFToolKit repository (compress / merge / encrypt /
decrypt / convert-to-excel / convert-to-word operations).

The Python code orchestrates external PDF libraries.  Pure repository logic
(input-shape dispatch, validation, batching, temp-file lifecycle, result
shaping) is translated directly; every delegate-engine call (pypdf readers and
writers, pdfplumber, pdf2docx, pandas/xlsxwriter, libmagic) is a field of an
`Env` oracle record, returning `Except String _` where the Python call can
raise.  The mutable environment (filesystem, logger output, stream cursors,
temp-file bookkeeping) is threaded explicitly as a `World` (plus the possibly
mutated input `Src`).
-/

namespace PDFToolkit

/-- A byte string, each element a byte value. -/
abbrev Bytes := List Nat

/-- Model of a Python readable-and-seekable binary stream: its full contents,
the current cursor position, and the optional `size` attribute consulted by
`validators.validate_pdf`. -/
structure Strm where
  data : Bytes
  pos : Nat
  sizeAttr : Option Nat
deriving Repr, DecidableEq

/-- Python `stream.tell()`. -/
def Strm.tell (s : Strm) : Nat := s.pos

/-- Python `stream.seek(n)`. -/
def Strm.seek (s : Strm) (n : Nat) : Strm := { s with pos := n }

/-- Python `stream.read(k)`: up to `k` bytes from the cursor, advancing it by
the number of bytes actually read. -/
def Strm.read (s : Strm) (k : Nat) : Bytes × Strm :=
  let chunk := (s.data.drop s.pos).take k
  (chunk, { s with pos := s.pos + chunk.length })

/-- Python `stream.read()`: everything from the cursor to the end. -/
def Strm.readAll (s : Strm) : Bytes × Strm :=
  (s.data.drop s.pos, { s with pos := max s.pos s.data.length })

/-- The caller-supplied PDF source: filesystem path, readable stream, byte
buffer, or any other (unsupported) shape. -/
inductive Src
  | path (p : String)
  | stream (s : Strm)
  | buf (b : Bytes)
  | other
deriving Repr, DecidableEq

/-- A filesystem: association of paths to file contents (later entries
shadowed by earlier ones). -/
abbrev FS := List (String × Bytes)

/-- Look a path up in the filesystem (Python `os.path.exists` / `open`). -/
def fsLookup (fs : FS) (p : String) : Option Bytes :=
  (fs.find? (fun e => e.1 == p)).map (fun e => e.2)

/-- Write (create or overwrite) a file. -/
def fsWrite (fs : FS) (p : String) (b : Bytes) : FS :=
  (p, b) :: fs.filter (fun e => !(e.1 == p))

/-- Remove a file. -/
def fsRemove (fs : FS) (p : String) : FS :=
  fs.filter (fun e => !(e.1 == p))

/-- The observable mutable state threaded through an operation: the
filesystem, the sequence of logger messages, the paths read from the
filesystem, the indices consumed by the merge delegate's `append`, the
temporary files created and the removal attempts made by convert-to-word, and
the counter feeding fresh temp-file names. -/
structure World where
  fs : FS
  log : List String
  fsReads : List String
  appended : List Nat
  created : List String
  removals : List String
  tempCtr : Nat
deriving Repr, DecidableEq

/-- Append one logger message. -/
def World.addLog (w : World) (m : String) : World := { w with log := w.log ++ [m] }

/-- A cell of an extracted table (pdfplumber cells may be `None`). -/
abbrev Cell := Option String

/-- A table extracted from a page: a list of rows. -/
abbrev PTable := List (List Cell)

/-- A page, modelled by what `page.extract_tables()` returns on it. -/
abbrev PPage := List PTable

/-- Model of a pandas DataFrame as built by the converter: optional header
row plus data rows. -/
structure DF where
  header : Option (List Cell)
  rows : List (List Cell)
deriving Repr, DecidableEq

/-- The delegate-engine oracles.  Each field models one external-library call
surface; `Except String _` results model calls that can raise (the `String`
is the exception's message). -/
structure Env where
  /-- `magic.Magic(mime=True).from_buffer` — MIME type of a byte sample. -/
  mimeOf : Bytes → String
  /-- `pypdf.PdfReader` on fully materialized bytes (also used for a path's
  contents); returns an opaque document handle. -/
  readerBytes : Bytes → Except String Nat
  /-- `pypdf.PdfReader` reading directly from a stream object; the stream is
  returned in whatever state the reader left it (also when it raises). -/
  readerStream : Strm → (Except String Nat) × Strm
  /-- The compress writer pipeline (`add_page`/`replace`/
  `compress_content_streams(level=…)`/`compress_identical_objects`/`write`)
  applied to a document at a given delegate compression level. -/
  compressOut : Nat → Int → Except String Bytes
  /-- `reader.is_encrypted`. -/
  isEncrypted : Nat → Bool
  /-- `reader.decrypt(password)`; raises on a wrong password. -/
  decryptDoc : Nat → String → Except String Nat
  /-- The encrypt writer pipeline (`add_page`/`encrypt(password, algorithm)`/
  `write`). -/
  encryptOut : Nat → String → String → Except String Bytes
  /-- The plain writer pipeline used by decrypt (`add_page`/`write`). -/
  writeDoc : Nat → Except String Bytes
  /-- `merger.append` on materialized bytes (path contents or a `BytesIO`);
  `Except` models the raise caught by the per-item handler. -/
  appendBytesRes : Bytes → Except String Unit
  /-- `merger.append` reading directly from a stream object. -/
  appendStreamRes : Strm → (Except String Unit) × Strm
  /-- `merger.write`: output bytes of the merged document, as a function of
  the appended contents in order. -/
  mergeOut : List Bytes → Bytes
  /-- `pdfplumber.open` on bytes: the pages, each modelled by its
  `extract_tables()` result. -/
  plumberOpen : Bytes → Except String (List PPage)
  /-- The spreadsheet-writer engine: bytes of the Excel file for the combined
  tables. -/
  excelOf : List DF → Bytes
  /-- `tempfile.NamedTemporaryFile`: fresh temp-file name for each counter
  value. -/
  tempName : Nat → String
  /-- Whether `os.remove` fails on a given path. -/
  removeFails : String → Bool
  /-- `pdf2docx.Converter(path).convert(out, start=…, end=…)`: DOCX bytes
  from PDF bytes and the page range. -/
  pdf2docx : Bytes → Int → Option Int → Except String Bytes

/-- The three shapes an operation's return value can take
(`Union[bytes, str, Tuple[bool, str]]`). -/
inductive OpResult
  | okBytes (b : Bytes)
  | okPath (p : String)
  | failure (msg : String)
deriving Repr, DecidableEq

/-- `validators.MAX_FILE_SIZE = 30 * 1024 * 1024`. -/
def MAX_FILE_SIZE : Nat := 30 * 1024 * 1024

/-- The size-ceiling message with the default limit; Python renders
`f"{30.0:.2f}"` as `"30.00"`. -/
def sizeExceededMsg : String :=
  "File size exceeds the maximum limit of 30.00 MB"

/-- Shallow embedding of `validators.validate_pdf` (validators.py lines
34–81): existence, size ceiling and MIME sniffing per input shape, restoring
a stream's cursor after the inspection read.  In this model the filesystem
and stream accesses cannot raise, so the function's own `except` arm is
unreachable and it returns a plain outcome. -/
def validate_pdf (env : Env) (file : Src) (w : World) :
    (Bool × Option String) × World × Src :=
  match file with
  | .path p =>
      let w := { w with fsReads := w.fsReads ++ [p] }
      match fsLookup w.fs p with
      | none => ((false, some ("File not found: " ++ p)), w, file)
      | some content =>
          if content.length ≤ MAX_FILE_SIZE then
            let sample := content.take 1024
            if env.mimeOf (sample.take 1024) == "application/pdf" then
              ((true, none), w, file)
            else ((false, some "File is not a valid PDF"), w, file)
          else ((false, some sizeExceededMsg), w, file)
  | .stream s =>
      let sizeFail :=
        match s.sizeAttr with
        | some sz => !(sz ≤ MAX_FILE_SIZE : Bool)
        | none => false
      if sizeFail then ((false, some sizeExceededMsg), w, file)
      else
        let currentPos := s.tell
        let s := s.seek 0
        let (content, s) := s.read 1024
        let s := s.seek currentPos
        if env.mimeOf (content.take 1024) == "application/pdf" then
          ((true, none), w, .stream s)
        else ((false, some "File is not a valid PDF"), w, .stream s)
  | .buf b =>
      if b.length ≤ MAX_FILE_SIZE then
        if env.mimeOf ((b.take 1024).take 1024) == "application/pdf" then
          ((true, none), w, file)
        else ((false, some "Content is not a valid PDF"), w, file)
      else ((false, some sizeExceededMsg), w, file)
  | .other => ((false, some "Unsupported file type"), w, file)

/-- `compression_level = min(max(1, compression_level), 10)` (compressor.py
line 46). -/
def clampLevel (l : Int) : Int := min (max 1 l) 10

/-- `compress_level = compression_level * 2 if compression_level < 5 else 9`
(compressor.py line 47). -/
def mapCompressLevel (l : Int) : Int := if l < 5 then l * 2 else 9

/-- The delegate compression level actually used for a caller-supplied level:
clamp, then map. -/
def effectiveCompressLevel (l : Int) : Int := mapCompressLevel (clampLevel l)

/-- Shallow embedding of the reader-construction block shared verbatim by
compress (compressor.py lines 50–66), encrypt (encryption.py lines 47–63) and
decrypt (encryption.py lines 118–134): dispatch on the input shape and build
a `PdfReader`, snapshotting and — on the success path — restoring a stream's
cursor.  `.ok none` models the `return False, "Unsupported input type"` early
return; `.error e` models a raised delegate exception (after which no
cursor restore runs). -/
def buildReader (env : Env) (w : World) (src : Src) :
    (Except String (Option Nat)) × World × Src :=
  match src with
  | .path p =>
      let w := { w with fsReads := w.fsReads ++ [p] }
      match fsLookup w.fs p with
      | none => (.error ("No such file or directory: " ++ p), w, src)
      | some content =>
          match env.readerBytes content with
          | .error e => (.error e, w, src)
          | .ok doc =>
              (.ok (some doc), w.addLog ("Reading PDF from file: " ++ p), src)
  | .stream s =>
      let currentPos := s.tell
      let s := s.seek 0
      match env.readerStream s with
      | (.error e, s1) => (.error e, w, .stream s1)
      | (.ok doc, s1) =>
          let s2 := s1.seek currentPos
          (.ok (some doc), w.addLog "Reading PDF from file-like object", .stream s2)
  | .buf b =>
      match env.readerBytes b with
      | .error e => (.error e, w, src)
      | .ok doc => (.ok (some doc), w.addLog "Reading PDF from bytes", src)
  | .other => (.ok none, w, src)

/-- Body of `PDFCompressor.compress` (compressor.py lines 40–92), without the
boundary `try/except`: `.error` models an exception still propagating. -/
def compressBody (env : Env) (out : Option String) (lvl : Int)
    (w : World) (src : Src) : (Except String OpResult) × World × Src :=
  match validate_pdf env src w with
  | ((isValid, msg), w, src) =>
    if isValid then
      let lvlC := clampLevel lvl
      let cl := mapCompressLevel lvlC
      let w := w.addLog ("Using compression level: " ++ toString cl)
      match buildReader env w src with
      | (.error e, w, src) => (.error e, w, src)
      | (.ok none, w, src) => (.ok (.failure "Unsupported input type"), w, src)
      | (.ok (some doc), w, src) =>
          match env.compressOut doc cl with
          | .error e => (.error e, w, src)
          | .ok outBytes =>
              match out with
              | some p =>
                  let w := { w with fs := fsWrite w.fs p outBytes }
                  (.ok (.okPath p), w.addLog ("Compressed PDF saved to: " ++ p), src)
              | none =>
                  (.ok (.okBytes outBytes),
                   w.addLog "PDF compression completed successfully", src)
    else
      let m := msg.getD "None"
      (.ok (.failure m), w.addLog ("Validation failed: " ++ m), src)

/-- `PDFCompressor.compress` (compressor.py lines 40–96): the body inside the
boundary `try/except` that converts any raised exception into a tagged
failure. -/
def compress (env : Env) (out : Option String) (lvl : Int)
    (w : World) (src : Src) : OpResult × World × Src :=
  match compressBody env out lvl w src with
  | (.ok r, w, src) => (r, w, src)
  | (.error e, w, src) =>
      let m := "An error occurred during compression: " ++ e
      (.failure m, w.addLog m, src)

/-- Body of `PDFEncryptor.encrypt` (encryption.py lines 37–83), without the
boundary `try/except`. -/
def encryptBody (env : Env) (pw : String) (out : Option String) (algo : String)
    (w : World) (src : Src) : (Except String OpResult) × World × Src :=
  match validate_pdf env src w with
  | ((isValid, msg), w, src) =>
    if isValid then
      if pw = "" then
        (.ok (.failure "Password is required for encryption"),
         w.addLog "Password is required for encryption", src)
      else
        match buildReader env w src with
        | (.error e, w, src) => (.error e, w, src)
        | (.ok none, w, src) => (.ok (.failure "Unsupported input type"), w, src)
        | (.ok (some doc), w, src) =>
            match env.encryptOut doc pw algo with
            | .error e => (.error e, w, src)
            | .ok outBytes =>
                match out with
                | some p =>
                    let w := { w with fs := fsWrite w.fs p outBytes }
                    (.ok (.okPath p), w.addLog ("Encrypted PDF saved to: " ++ p), src)
                | none =>
                    (.ok (.okBytes outBytes),
                     w.addLog "PDF encryption completed successfully", src)
    else
      let m := msg.getD "None"
      (.ok (.failure m), w.addLog ("Validation failed: " ++ m), src)

/-- `PDFEncryptor.encrypt` (encryption.py lines 17–88) with its boundary
`try/except`. -/
def encrypt (env : Env) (pw : String) (out : Option String) (algo : String)
    (w : World) (src : Src) : OpResult × World × Src :=
  match encryptBody env pw out algo w src with
  | (.ok r, w, src) => (r, w, src)
  | (.error e, w, src) =>
      let m := "An error occurred during encryption: " ++ e
      (.failure m, w.addLog m, src)

/-- Body of `PDFEncryptor.decrypt` (encryption.py lines 108–162), without the
boundary `try/except`.  The inner `try` around `reader.decrypt(password)`
converts a raise there into the wrong-password failure. -/
def decryptBody (env : Env) (pw : String) (out : Option String)
    (w : World) (src : Src) : (Except String OpResult) × World × Src :=
  match validate_pdf env src w with
  | ((isValid, msg), w, src) =>
    if isValid then
      if pw = "" then
        (.ok (.failure "Password is required for decryption"),
         w.addLog "Password is required for decryption", src)
      else
        match buildReader env w src with
        | (.error e, w, src) => (.error e, w, src)
        | (.ok none, w, src) => (.ok (.failure "Unsupported input type"), w, src)
        | (.ok (some doc), w, src) =>
            if env.isEncrypted doc then
              match env.decryptDoc doc pw with
              | .error _ =>
                  (.ok (.failure "Incorrect password or failed to decrypt the PDF"),
                   w.addLog "Incorrect password or failed to decrypt the PDF", src)
              | .ok doc1 =>
                  match env.writeDoc doc1 with
                  | .error e => (.error e, w, src)
                  | .ok outBytes =>
                      match out with
                      | some p =>
                          let w := { w with fs := fsWrite w.fs p outBytes }
                          (.ok (.okPath p),
                           w.addLog ("Decrypted PDF saved to: " ++ p), src)
                      | none =>
                          (.ok (.okBytes outBytes),
                           w.addLog "PDF decryption completed successfully", src)
            else
              (.ok (.failure "The PDF is not encrypted"),
               w.addLog "The PDF is not encrypted", src)
    else
      let m := msg.getD "None"
      (.ok (.failure m), w.addLog ("Validation failed: " ++ m), src)

/-- `PDFEncryptor.decrypt` (encryption.py lines 90–167) with its boundary
`try/except`. -/
def decrypt (env : Env) (pw : String) (out : Option String)
    (w : World) (src : Src) : OpResult × World × Src :=
  match decryptBody env pw out w src with
  | (.ok r, w, src) => (r, w, src)
  | (.error e, w, src) =>
      let m := "An error occurred during decryption: " ++ e
      (.failure m, w.addLog m, src)

/-- The validation loop of `PDFMerger.merge` (merger.py lines 42–46): validate
each input in order, stopping at the first failure with its index and
message; sources after the failing one are untouched. -/
def validateLoop (env : Env) (w : World) (srcs : List Src) (i : Nat) :
    (Option (Nat × String)) × World × List Src :=
  match srcs with
  | [] => (none, w, [])
  | s :: rest =>
      match validate_pdf env s w with
      | ((isValid, msg), w, s1) =>
        if isValid then
          match validateLoop env w rest (i + 1) with
          | (r, w1, rest1) => (r, w1, s1 :: rest1)
        else
          let m := msg.getD "None"
          (some (i, m),
           w.addLog ("Validation failed for PDF #" ++ toString (i + 1) ++ ": " ++ m),
           s1 :: rest)

/-- The append loop of `PDFMerger.merge` (merger.py lines 50–71): feed each
input to the delegate writer's `append`, accumulating the appended contents;
a per-item `try/except` turns a raise into an early failure return
(`.inl`).  Appended indices are recorded in `World.appended`. -/
def appendLoop (env : Env) (w : World) (srcs : List Src) (i : Nat)
    (acc : List Bytes) : (Sum OpResult (List Bytes)) × World × List Src :=
  match srcs with
  | [] => (.inr acc, w, [])
  | s :: rest =>
      match s with
      | .path p =>
          let w := w.addLog ("Adding PDF #" ++ toString (i + 1) ++ " from file: " ++ p)
          let w := { w with fsReads := w.fsReads ++ [p] }
          match fsLookup w.fs p with
          | none =>
              let m := "Error adding PDF #" ++ toString (i + 1) ++ ": " ++
                ("No such file or directory: " ++ p)
              (.inl (.failure m), w.addLog m, s :: rest)
          | some content =>
              match env.appendBytesRes content with
              | .error e =>
                  let m := "Error adding PDF #" ++ toString (i + 1) ++ ": " ++ e
                  (.inl (.failure m), w.addLog m, s :: rest)
              | .ok _ =>
                  let w := { w with appended := w.appended ++ [i] }
                  match appendLoop env w rest (i + 1) (acc ++ [content]) with
                  | (r, w1, rest1) => (r, w1, s :: rest1)
      | .stream st =>
          let currentPos := st.tell
          let st0 := st.seek 0
          match env.appendStreamRes st0 with
          | (.error e, st1) =>
              let m := "Error adding PDF #" ++ toString (i + 1) ++ ": " ++ e
              (.inl (.failure m), w.addLog m, .stream st1 :: rest)
          | (.ok _, st1) =>
              let st2 := st1.seek currentPos
              let w := w.addLog ("Adding PDF #" ++ toString (i + 1) ++ " from file-like object")
              let w := { w with appended := w.appended ++ [i] }
              match appendLoop env w rest (i + 1) (acc ++ [st0.data]) with
              | (r, w1, rest1) => (r, w1, .stream st2 :: rest1)
      | .buf b =>
          match env.appendBytesRes b with
          | .error e =>
              let m := "Error adding PDF #" ++ toString (i + 1) ++ ": " ++ e
              (.inl (.failure m), w.addLog m, s :: rest)
          | .ok _ =>
              let w := w.addLog ("Adding PDF #" ++ toString (i + 1) ++ " from bytes")
              let w := { w with appended := w.appended ++ [i] }
              match appendLoop env w rest (i + 1) (acc ++ [b]) with
              | (r, w1, rest1) => (r, w1, s :: rest1)
      | .other =>
          (.inl (.failure ("Unsupported input type for PDF #" ++ toString (i + 1))),
           w, s :: rest)

/-- Body of `PDFMerger.merge` (merger.py lines 33–85), without the boundary
`try/except` (within the model no exception escapes the per-item handlers, so
the `.error` arm is never produced). -/
def mergeBody (env : Env) (out : Option String) (w : World) (srcs : List Src) :
    (Except String OpResult) × World × List Src :=
  if srcs.length = 0 then
    (.ok (.failure "No PDF files provided for merging"),
     w.addLog "No PDF files provided for merging", srcs)
  else if srcs.length < 2 then
    (.ok (.failure "At least two PDF files are required for merging"),
     w.addLog "At least two PDF files are required for merging", srcs)
  else
    match validateLoop env w srcs 0 with
    | (some (i, m), w, srcs) =>
        (.ok (.failure ("Validation failed for PDF #" ++ toString (i + 1) ++ ": " ++ m)),
         w, srcs)
    | (none, w, srcs) =>
        match appendLoop env w srcs 0 [] with
        | (.inl r, w, srcs) => (.ok r, w, srcs)
        | (.inr acc, w, srcs) =>
            match out with
            | some p =>
                let w := { w with fs := fsWrite w.fs p (env.mergeOut acc) }
                (.ok (.okPath p), w.addLog ("Merged PDF saved to: " ++ p), srcs)
            | none =>
                (.ok (.okBytes (env.mergeOut acc)),
                 w.addLog "PDF merging completed successfully", srcs)

/-- `PDFMerger.merge` (merger.py lines 17–90) with its boundary
`try/except`. -/
def merge (env : Env) (out : Option String) (w : World) (srcs : List Src) :
    OpResult × World × List Src :=
  match mergeBody env out w srcs with
  | (.ok r, w, srcs) => (r, w, srcs)
  | (.error e, w, srcs) =>
      let m := "An error occurred during PDF merging: " ++ e
      (.failure m, w.addLog m, srcs)

/-- Element count of Python `range(start, stop, step)` for `step > 0`:
`ceil((stop - start) / step)`, and `0` when `stop ≤ start`. -/
def rangeUpLen (start stop step : Int) : Nat :=
  if stop ≤ start then 0 else ((stop - start + step - 1) / step).toNat

/-- Element count of Python `range(start, stop, step)` for `step < 0`:
`ceil((start - stop) / (-step))`, and `0` when `start ≤ stop`. -/
def rangeDownLen (start stop step : Int) : Nat :=
  if start ≤ stop then 0 else ((start - stop + (-step) - 1) / (-step)).toNat

/-- Python `range(start, stop, step)` as a list; `step = 0` raises
`ValueError: range() arg 3 must not be zero`. -/
def pythonRange (start stop step : Int) : Except String (List Int) :=
  if step = 0 then .error "range() arg 3 must not be zero"
  else if 0 < step then
    .ok ((List.range (rangeUpLen start stop step)).map
      (fun i : Nat => start + step * (i : Int)))
  else
    .ok ((List.range (rangeDownLen start stop step)).map
      (fun i : Nat => start + step * (i : Int)))

/-- Python slice `l[a:b]` for non-negative bounds. -/
def islice {α : Type} (l : List α) (a b : Int) : List α :=
  (l.take b.toNat).drop a.toNat

/-- One extracted table to a DataFrame (converter.py lines 98–103): more than
one row makes the first row the header; a single-row table has none. -/
def tableToDF (t : PTable) : DF :=
  if 1 < t.length then { header := t.head?, rows := t.tail }
  else { header := none, rows := t }

/-- All DataFrames of one page, in detection order (converter.py lines
95–104; an empty `extract_tables()` result contributes nothing). -/
def pageDFs (pg : PPage) : List DF := pg.map tableToDF

/-- The tables collected by the batched page loop of
`PDFToExcelConverter._extract_and_save_tables` (converter.py lines 90–104):
page-batch starts from `range(0, total_pages, batch_size)`, each batch the
slice `pages[batch_start:batch_end]` with
`batch_end = min(batch_start + batch_size, total_pages)`. -/
def extractTablesList (pages : List PPage) (batchSize : Int) :
    Except String (List DF) :=
  match pythonRange 0 pages.length batchSize with
  | .error e => .error e
  | .ok starts =>
      .ok (starts.flatMap (fun batchStart =>
        let batchEnd := min (batchStart + batchSize) (pages.length : Int)
        (islice pages batchStart batchEnd).flatMap pageDFs))

/-- One iteration of the batched page loop (converter.py lines 90–104): log
the batch's page range, slice `pages[batch_start:batch_end]`, and append the
batch's tables. -/
def batchStep (pages : List PPage) (batchSize : Int) (p : World × List DF)
    (batchStart : Int) : World × List DF :=
  let batchEnd := min (batchStart + batchSize) ((pages.length : Int))
  (p.1.addLog ("Processing pages " ++ toString (batchStart + 1) ++
      " to " ++ toString batchEnd),
   p.2 ++ (islice pages batchStart batchEnd).flatMap pageDFs)

/-- `PDFToExcelConverter._extract_and_save_tables` (converter.py lines
71–122): run the batched loop (logging each batch's page range), fail when no
tables were found, otherwise combine and write/return the Excel output. -/
def extractAndSaveTables (env : Env) (w : World) (pages : List PPage)
    (out : Option String) (batchSize : Int) : (Except String OpResult) × World :=
  let w := w.addLog ("Processing PDF with " ++ toString pages.length ++ " pages")
  match pythonRange 0 pages.length batchSize with
  | .error e => (.error e, w)
  | .ok starts =>
      match starts.foldl (batchStep pages batchSize) (w, []) with
      | (w, tablesList) =>
        if tablesList.isEmpty then
          (.ok (.failure "No tables found in the PDF"),
           w.addLog "No tables found in the PDF")
        else
          match out with
          | some p =>
              let w := { w with fs := fsWrite w.fs p (env.excelOf tablesList) }
              (.ok (.okPath p), w.addLog ("Excel file saved to: " ++ p))
          | none =>
              (.ok (.okBytes (env.excelOf tablesList)),
               w.addLog "PDF to Excel conversion completed successfully")

/-- Body of `PDFToExcelConverter.convert` (converter.py lines 35–64), without
the boundary `try/except`.  The `import pdfplumber` step is modelled as
succeeding; a stream input is fully read from position 0 and its cursor
restored before the delegate opens the copied bytes. -/
def convertExcelBody (env : Env) (out : Option String) (batchSize : Int)
    (w : World) (src : Src) : (Except String OpResult) × World × Src :=
  match validate_pdf env src w with
  | ((isValid, msg), w, src) =>
    if isValid then
      match src with
      | .path p =>
          let w := { w with fsReads := w.fsReads ++ [p] }
          match fsLookup w.fs p with
          | none => (.error ("No such file or directory: " ++ p), w, src)
          | some content =>
              match env.plumberOpen content with
              | .error e => (.error e, w, src)
              | .ok pages =>
                  match extractAndSaveTables env w pages out batchSize with
                  | (r, w) => (r, w, src)
      | .stream s =>
          let currentPos := s.tell
          let s := s.seek 0
          let (content, s) := s.readAll
          let s := s.seek currentPos
          match env.plumberOpen content with
          | .error e => (.error e, w, .stream s)
          | .ok pages =>
              match extractAndSaveTables env w pages out batchSize with
              | (r, w) => (r, w, .stream s)
      | .buf b =>
          match env.plumberOpen b with
          | .error e => (.error e, w, src)
          | .ok pages =>
              match extractAndSaveTables env w pages out batchSize with
              | (r, w) => (r, w, src)
      | .other => (.ok (.failure "Unsupported input type"), w, src)
    else
      let m := msg.getD "None"
      (.ok (.failure m), w.addLog ("Validation failed: " ++ m), src)

/-- `PDFToExcelConverter.convert` (converter.py lines 17–69) with its
boundary `try/except`. -/
def convertExcel (env : Env) (out : Option String) (batchSize : Int)
    (w : World) (src : Src) : OpResult × World × Src :=
  match convertExcelBody env out batchSize w src with
  | (.ok r, w, src) => (r, w, src)
  | (.error e, w, src) =>
      let m := "An error occurred during PDF to Excel conversion: " ++ e
      (.failure m, w.addLog m, src)

/-- Python `end_page or 'end'` in the conversion log line (converter.py line
188): both `None` and `0` are falsy. -/
def endStr : Option Int → String
  | none => "end"
  | some k => if k = 0 then "end" else toString k

/-- The best-effort cleanup blocks of `PDFToWordConverter.convert`
(converter.py lines 203–214): `try: os.remove(p); logger.debug(…) except:
pass`.  The attempt is recorded; on success the file disappears and a debug
line is logged; on failure the exception is swallowed and nothing at all is
logged. -/
def tryRemove (env : Env) (w : World) (p : String) (okMsg : String) : World :=
  let w := { w with removals := w.removals ++ [p] }
  if env.removeFails p then w
  else
    let w := { w with fs := fsRemove w.fs p }
    w.addLog (okMsg ++ p)

/-- The tail of `PDFToWordConverter.convert` after the temporary PDF copy has
been written (converter.py lines 178–214): pick the destination DOCX path
(a fresh temp file when none was given), run the delegate conversion inside
the inner `try`, and in its `finally` best-effort remove the temporary PDF
and, when it was a temp file, the destination DOCX. -/
def convertWordRest (env : Env) (out : Option String) (sp : Int)
    (ep : Option Int) (w : World) (src : Src) (tempPdfPath : String) :
    (Except String OpResult) × World × Src :=
  let (tempDocxPath, deleteOutput, w) :=
    match out with
    | some p => (p, false, w)
    | none =>
        let nm := env.tempName w.tempCtr
        (nm, true,
         { w with tempCtr := w.tempCtr + 1,
                  created := w.created ++ [nm],
                  fs := fsWrite w.fs nm [] })
  let w := w.addLog ("Converting PDF to Word (pages " ++ toString sp ++
    " to " ++ endStr ep ++ ")")
  let (tryRes, w) :=
    let w := { w with fsReads := w.fsReads ++ [tempPdfPath] }
    match fsLookup w.fs tempPdfPath with
    | none => ((.error ("No such file or directory: " ++ tempPdfPath) :
        Except String OpResult), w)
    | some pdfBytes =>
        match env.pdf2docx pdfBytes sp ep with
        | .error e => (.error e, w)
        | .ok docxBytes =>
            let w := { w with fs := fsWrite w.fs tempDocxPath docxBytes }
            match out with
            | some p => (.ok (.okPath p), w.addLog ("Word file saved to: " ++ p))
            | none =>
                let w := { w with fsReads := w.fsReads ++ [tempDocxPath] }
                let docxData := (fsLookup w.fs tempDocxPath).getD []
                (.ok (.okBytes docxData),
                 w.addLog "PDF to Word conversion completed successfully")
  let w := tryRemove env w tempPdfPath "Deleted temporary PDF file: "
  let w := if deleteOutput then
      tryRemove env w tempDocxPath "Deleted temporary Word file: "
    else w
  (tryRes, w, src)

/-- Body of `PDFToWordConverter.convert` (converter.py lines 149–214),
without the boundary `try/except`: validation, creation of the temporary
on-disk PDF copy (the delegate requires file-path input), the per-shape write
into it, then `convertWordRest`.  The `import pdf2docx` step is modelled as
succeeding. -/
def convertWordBody (env : Env) (out : Option String) (sp : Int)
    (ep : Option Int) (w : World) (src : Src) :
    (Except String OpResult) × World × Src :=
  match validate_pdf env src w with
  | ((isValid, msg), w, src) =>
    if isValid then
      let tempPdfPath := env.tempName w.tempCtr
      let w := { w with tempCtr := w.tempCtr + 1,
                        created := w.created ++ [tempPdfPath],
                        fs := fsWrite w.fs tempPdfPath [] }
      match src with
      | .path p =>
          let w := { w with fsReads := w.fsReads ++ [p] }
          match fsLookup w.fs p with
          | none => (.error ("No such file or directory: " ++ p), w, src)
          | some content =>
              let w := { w with fs := fsWrite w.fs tempPdfPath content }
              convertWordRest env out sp ep w src tempPdfPath
      | .stream s =>
          let currentPos := s.tell
          let s := s.seek 0
          let (content, s) := s.readAll
          let s := s.seek currentPos
          let w := { w with fs := fsWrite w.fs tempPdfPath content }
          convertWordRest env out sp ep w (.stream s) tempPdfPath
      | .buf b =>
          let w := { w with fs := fsWrite w.fs tempPdfPath b }
          convertWordRest env out sp ep w src tempPdfPath
      | .other => (.ok (.failure "Unsupported input type"), w, src)
    else
      let m := msg.getD "None"
      (.ok (.failure m), w.addLog ("Validation failed: " ++ m), src)

/-- `PDFToWordConverter.convert` (converter.py lines 129–219) with its
boundary `try/except`. -/
def convertWord (env : Env) (out : Option String) (sp : Int) (ep : Option Int)
    (w : World) (src : Src) : OpResult × World × Src :=
  match convertWordBody env out sp ep w src with
  | (.ok r, w, src) => (r, w, src)
  | (.error e, w, src) =>
      let m := "An error occurred during PDF to Word conversion: " ++ e
      (.failure m, w.addLog m, src)

/-! ### Concrete fixtures used to instantiate the theorems -/

/-- The property that a returned value is one of the three documented result
shapes: a byte buffer, a destination path, or a tagged failure message. -/
def resultShape (r : OpResult) : Prop :=
  (∃ b, r = OpResult.okBytes b) ∨ (∃ p, r = OpResult.okPath p) ∨
    (∃ m, r = OpResult.failure m)

/-- An empty initial world. -/
def w0 : World := ⟨[], [], [], [], [], [], 0⟩

/-- A small byte buffer standing for PDF content (`%PDF`). -/
def pdfB : Bytes := [37, 80, 68, 70]

/-- A baseline oracle assignment in which every delegate call succeeds. -/
def env0 : Env where
  mimeOf := fun _ => "application/pdf"
  readerBytes := fun _ => .ok 1
  readerStream := fun s => (.ok 2, s)
  compressOut := fun _ lvl => .ok [lvl.toNat]
  isEncrypted := fun _ => true
  decryptDoc := fun d _ => .ok d
  encryptOut := fun _ _ _ => .ok [9, 9]
  writeDoc := fun _ => .ok [7]
  appendBytesRes := fun _ => .ok ()
  appendStreamRes := fun s => (.ok (), s)
  mergeOut := fun l => l.flatten
  plumberOpen := fun _ => .ok []
  excelOf := fun dfs => [dfs.length]
  tempName := fun n => "/tmp/t" ++ toString n
  removeFails := fun _ => false
  pdf2docx := fun _ _ _ => .ok [1, 2, 3]

/-- Oracles in which `PdfReader` on materialized bytes raises. -/
def envRaise : Env := { env0 with readerBytes := fun _ => .error "boom" }

/-- Oracles in which `PdfReader` raises when reading directly from a stream,
leaving the stream wherever it was. -/
def envC3 : Env :=
  { env0 with readerStream := fun s => (.error "EOF marker not found", s) }

/-- Oracles in which `reader.decrypt` raises (wrong password). -/
def envPw : Env := { env0 with decryptDoc := fun _ _ => .error "wrong password" }

/-- Oracles in which every `os.remove` fails. -/
def envC4 : Env := { env0 with removeFails := fun _ => true }

/-- Pages with extractable tables for the converter fixtures. -/
def pgsW : List PPage :=
  [[[[some "h", some "i"], [some "a", some "b"]]], ([] : PPage),
   [[[some "x"]]], [[[some "p"], [some "q"]], [[some "z"]]]]

/-- Oracles whose `pdfplumber.open` yields `pgsW`. -/
def envE : Env := { env0 with plumberOpen := fun _ => .ok pgsW }

/-! ### Theorems -/

/-- Every `OpResult` is one of the three documented shapes. -/
theorem opResult_shape (r : OpResult) : resultShape r := by
  cases r with
  | okBytes b => exact .inl ⟨b, rfl⟩
  | okPath p => exact .inr (.inl ⟨p, rfl⟩)
  | failure m => exact .inr (.inr ⟨m, rfl⟩)

/-- C2: for every integer compression level, the level is first clamped into
[1, 10]; the clamped level `L` maps to the delegate scale as `L * 2` when
`L ≤ 4` and as the single maximum setting `9` when `5 ≤ L`. -/
theorem c2_compression_level_mapping (l : Int) :
    1 ≤ clampLevel l ∧ clampLevel l ≤ 10
    ∧ (clampLevel l ≤ 4 → effectiveCompressLevel l = clampLevel l * 2)
    ∧ (5 ≤ clampLevel l → effectiveCompressLevel l = 9) := by
  simp only [clampLevel, effectiveCompressLevel, mapCompressLevel]
  rcases le_total (1 : Int) l with h1 | h1 <;>
    rcases le_total l (10 : Int) with h2 | h2 <;>
      simp [max_def, min_def, *] <;> constructor <;> intros <;> omega

/-- Witness for C2 at levels 3 and 7. -/
theorem c2_compression_level_mapping_witness :
    effectiveCompressLevel 3 = clampLevel 3 * 2 ∧ effectiveCompressLevel 7 = 9 :=
  ⟨(c2_compression_level_mapping 3).2.2.1 (by decide),
   (c2_compression_level_mapping 7).2.2.2 (by decide)⟩

/-- C9: merge with fewer than two sources (including the empty list) returns
a tagged failure without reading from or writing to the filesystem, without
consuming any input through the delegate writer, and without touching the
sources. -/
theorem c9_merge_too_few_inputs (env : Env) (w : World) (srcs : List Src)
    (out : Option String) (h : srcs.length < 2) :
    (∃ m, (merge env out w srcs).1 = OpResult.failure m)
    ∧ (merge env out w srcs).2.1.fs = w.fs
    ∧ (merge env out w srcs).2.1.fsReads = w.fsReads
    ∧ (merge env out w srcs).2.1.appended = w.appended
    ∧ (merge env out w srcs).2.2 = srcs := by
  match srcs with
  | [] => simp [merge, mergeBody, World.addLog]
  | [s] => simp [merge, mergeBody, World.addLog]
  | a :: b :: t => simp only [List.length_cons] at h; omega

/-- Witness for C9 on the empty input list. -/
theorem c9_merge_too_few_inputs_witness :
    (∃ m, (merge env0 none w0 []).1 = OpResult.failure m)
    ∧ (merge env0 none w0 []).2.1.fs = w0.fs
    ∧ (merge env0 none w0 []).2.1.fsReads = w0.fsReads
    ∧ (merge env0 none w0 []).2.1.appended = w0.appended
    ∧ (merge env0 none w0 []).2.2 = [] :=
  c9_merge_too_few_inputs env0 w0 [] none (by decide)

/-- C7 counterexample: for an input of unsupported shape, compress returns
the validator's message "Unsupported file type", not "Unsupported input
type" as the claim states — the validator's type dispatch runs first, so the
operations' own "Unsupported input type" branches are unreachable. -/
theorem c7_counterexample :
    (compress env0 none 5 w0 Src.other).1 = OpResult.failure "Unsupported file type"
    ∧ (compress env0 none 5 w0 Src.other).1 ≠
        OpResult.failure "Unsupported input type" := by
  constructor
  · rfl
  · decide

/-- C7 amended: for every input of unsupported shape, each single-input
operation returns the tagged failure "Unsupported file type" (produced by
the validator, which runs first), and merge on a list headed by such an
input reports it as the first input's validation failure; no operation
crashes. -/
theorem c7_amended_unsupported_type (env : Env) (w : World) (out : Option String)
    (lvl : Int) (pw algo : String) (bs sp : Int) (ep : Option Int)
    (rest : List Src) (hrest : 1 ≤ rest.length) :
    (compress env out lvl w Src.other).1 = OpResult.failure "Unsupported file type"
    ∧ (encrypt env pw out algo w Src.other).1 = OpResult.failure "Unsupported file type"
    ∧ (decrypt env pw out w Src.other).1 = OpResult.failure "Unsupported file type"
    ∧ (convertExcel env out bs w Src.other).1 = OpResult.failure "Unsupported file type"
    ∧ (convertWord env out sp ep w Src.other).1 = OpResult.failure "Unsupported file type"
    ∧ (merge env out w (Src.other :: rest)).1 =
        OpResult.failure "Validation failed for PDF #1: Unsupported file type" := by
  refine ⟨rfl, rfl, rfl, rfl, rfl, ?_⟩
  match rest with
  | r :: t =>
      simp [merge, mergeBody, validateLoop, validate_pdf,
        show ¬(t.length + 1 + 1 < 2) by omega]
      rfl

/-- Witness for C7 amended, on a singleton tail. -/
theorem c7_amended_unsupported_type_witness :
    (compress env0 none 5 w0 Src.other).1 = OpResult.failure "Unsupported file type"
    ∧ (merge env0 none w0 [Src.other, Src.buf pdfB]).1 =
        OpResult.failure "Validation failed for PDF #1: Unsupported file type" :=
  ⟨(c7_amended_unsupported_type env0 w0 none 5 "" "" 5 0 none [Src.buf pdfB]
      (by decide)).1,
   (c7_amended_unsupported_type env0 w0 none 5 "" "" 5 0 none [Src.buf pdfB]
      (by decide)).2.2.2.2.2⟩

/-- C8: for every validated input whose reader is built successfully, when
the source is encrypted and `reader.decrypt` raises (wrong password), decrypt
returns the tagged failure "Incorrect password or failed to decrypt the PDF"
— the delegate exception is caught at the decrypt boundary and never
propagated. -/
theorem c8_decrypt_wrong_password (env : Env) (w w1 w2 : World)
    (src src1 src2 : Src) (pw : String) (out : Option String) (doc : Nat)
    (e : String)
    (hpw : pw ≠ "")
    (hval : validate_pdf env src w = ((true, none), w1, src1))
    (hrd : buildReader env w1 src1 = (.ok (some doc), w2, src2))
    (henc : env.isEncrypted doc = true)
    (hwrong : env.decryptDoc doc pw = .error e) :
    (decrypt env pw out w src).1 =
      OpResult.failure "Incorrect password or failed to decrypt the PDF" := by
  simp [decrypt, decryptBody, hval, hpw, hrd, henc, hwrong]

/-- Witness for C8: a concrete encrypted source and raising decrypt call. -/
theorem c8_decrypt_wrong_password_witness :
    (decrypt envPw "secret" none w0 (Src.buf pdfB)).1 =
      OpResult.failure "Incorrect password or failed to decrypt the PDF" :=
  c8_decrypt_wrong_password envPw w0 w0 (w0.addLog "Reading PDF from bytes")
    (Src.buf pdfB) (Src.buf pdfB) (Src.buf pdfB) "secret" none 1 "wrong password"
    (by decide) rfl rfl rfl rfl

/-- C3 counterexample: a stream supplied at cursor position 3 to compress,
with a delegate reader that raises while parsing the stream, is handed back
at position 0 — the snapshot-restoring seek is skipped on the raising path,
while the operation itself returns a shaped failure. -/
theorem c3_counterexample :
    (compress envC3 none 5 w0 (Src.stream ⟨pdfB, 3, none⟩)).2.2 =
      Src.stream ⟨pdfB, 0, none⟩
    ∧ (compress envC3 none 5 w0 (Src.stream ⟨pdfB, 3, none⟩)).1 =
        OpResult.failure "An error occurred during compression: EOF marker not found"
    ∧ (Strm.mk pdfB 3 none).pos = 3 := by
  refine ⟨rfl, rfl, rfl⟩

/-- The validator hands a stream input back with its cursor restored to the
supplied position and the world unchanged, whatever the outcome. -/
theorem validate_pdf_stream_shape (env : Env) (w : World) (s : Strm) :
    ∃ ok msg s1, validate_pdf env (Src.stream s) w = ((ok, msg), w, Src.stream s1)
      ∧ s1.pos = s.pos := by
  simp only [validate_pdf]
  split
  · exact ⟨false, some sizeExceededMsg, s, rfl, rfl⟩
  · split
    · exact ⟨true, none, _, rfl, rfl⟩
    · exact ⟨false, some "File is not a valid PDF", _, rfl, rfl⟩

/-- C3 amended: the validator itself always restores a stream's cursor (its
inspection reads cannot raise in this model), and compress restores the
cursor on every path on which the delegate stream-parse returns normally —
including validation-failure and output-stage-failure paths; only a raise
inside the delegate parse leaves the cursor unrestored. -/
theorem c3_amended_stream_cursor_restored (env : Env) (w : World) (s : Strm)
    (out : Option String) (lvl : Int)
    (h : ∀ t, ∃ d t', env.readerStream t = (Except.ok d, t')) :
    ∃ s', (compress env out lvl w (Src.stream s)).2.2 = Src.stream s'
      ∧ s'.pos = s.pos := by
  obtain ⟨ok, msg, s1, hv, hpos⟩ := validate_pdf_stream_shape env w s
  simp only [compress, compressBody, hv]
  cases ok
  · exact ⟨s1, rfl, hpos⟩
  · simp only [if_true]
    simp only [buildReader]
    rcases h (s1.seek 0) with ⟨d, t', ht⟩
    rw [ht]
    rcases hc : env.compressOut d (mapCompressLevel (clampLevel lvl)) with e | ob
    · exact ⟨t'.seek s1.tell, by simp [hc], hpos⟩
    · rcases out with _ | p
      · exact ⟨t'.seek s1.tell, by simp [hc], hpos⟩
      · exact ⟨t'.seek s1.tell, by simp [hc], hpos⟩

/-- Witness for C3 amended: with a normally returning stream reader the
cursor comes back at its original position 3. -/
theorem c3_amended_stream_cursor_restored_witness :
    ∃ s', (compress env0 none 5 w0 (Src.stream ⟨pdfB, 3, none⟩)).2.2 =
        Src.stream s' ∧ s'.pos = (Strm.mk pdfB 3 none).pos :=
  c3_amended_stream_cursor_restored env0 w0 ⟨pdfB, 3, none⟩ none 5
    (fun t => ⟨2, t, rfl⟩)

/-- C1: for every oracle assignment, input shape and parameter combination,
each of the six public operations returns a value of one of the three
documented shapes (byte buffer, destination path, or tagged failure) — no
exception escapes; moreover, when an operation's body raises (its `Except`
layer carries an error), the boundary handler converts it into the tagged
failure carrying the operation's message. -/
theorem c1_operations_never_raise (env : Env) (w : World) (src : Src)
    (srcs : List Src) (out : Option String) (lvl : Int) (pw algo : String)
    (bs sp : Int) (ep : Option Int) (e : String) :
    resultShape (compress env out lvl w src).1
    ∧ resultShape (merge env out w srcs).1
    ∧ resultShape (encrypt env pw out algo w src).1
    ∧ resultShape (decrypt env pw out w src).1
    ∧ resultShape (convertExcel env out bs w src).1
    ∧ resultShape (convertWord env out sp ep w src).1
    ∧ ((compressBody env out lvl w src).1 = .error e →
        (compress env out lvl w src).1 =
          OpResult.failure ("An error occurred during compression: " ++ e))
    ∧ ((convertWordBody env out sp ep w src).1 = .error e →
        (convertWord env out sp ep w src).1 =
          OpResult.failure ("An error occurred during PDF to Word conversion: " ++ e)) := by
  refine ⟨opResult_shape _, opResult_shape _, opResult_shape _, opResult_shape _,
    opResult_shape _, opResult_shape _, ?_, ?_⟩
  · intro h
    rcases hb : compressBody env out lvl w src with ⟨r, w1, src1⟩
    rw [hb] at h
    simp only at h
    subst h
    simp [compress, hb]
  · intro h
    rcases hb : convertWordBody env out sp ep w src with ⟨r, w1, src1⟩
    rw [hb] at h
    simp only at h
    subst h
    simp [convertWord, hb]

/-- Witness for C1: a delegate reader that raises is converted to a shaped
failure at the compress boundary. -/
theorem c1_operations_never_raise_witness :
    resultShape (compress envRaise none 5 w0 (Src.buf pdfB)).1
    ∧ (compress envRaise none 5 w0 (Src.buf pdfB)).1 =
        OpResult.failure ("An error occurred during compression: " ++ "boom") :=
  ⟨(c1_operations_never_raise envRaise w0 (Src.buf pdfB) [] none 5 "" "" 5 0
      none "boom").1,
   (c1_operations_never_raise envRaise w0 (Src.buf pdfB) [] none 5 "" "" 5 0
      none "boom").2.2.2.2.2.2.1 rfl⟩

/-- The validation outcome depends on the world only through its
filesystem. -/
theorem validate_pdf_outcome_fs_only (env : Env) (s : Src) (w w' : World)
    (h : w.fs = w'.fs) :
    (validate_pdf env s w).1 = (validate_pdf env s w').1 := by
  cases s <;> simp [validate_pdf, h] <;> (repeat' split) <;> rfl

/-- Validation never changes the filesystem or the append record. -/
theorem validate_pdf_world_inv (env : Env) (s : Src) (w : World) :
    (validate_pdf env s w).2.1.fs = w.fs
    ∧ (validate_pdf env s w).2.1.appended = w.appended := by
  cases s <;> simp only [validate_pdf] <;> (repeat' split) <;> simp

/-- The merge validation loop stops at the first failing input, reporting
its index and message, leaving the filesystem and the append record
untouched. -/
theorem validateLoop_first_fail (env : Env) (m : String) :
    ∀ (srcs : List Src) (i : Nat) (hi : i < srcs.length) (w : World) (k : Nat),
      (validate_pdf env (srcs.get ⟨i, hi⟩) w).1 = (false, some m) →
      (∀ j (hj : j < i), (validate_pdf env (srcs.get ⟨j, by omega⟩) w).1.1 = true) →
      ∃ w' srcs', validateLoop env w srcs k = (some (k + i, m), w', srcs')
        ∧ w'.fs = w.fs ∧ w'.appended = w.appended := by
  intro srcs
  induction srcs with
  | nil => intro i hi; simp at hi
  | cons s rest ih =>
      intro i hi w k hfail hprev
      match i with
      | 0 =>
          have hfail0 : (validate_pdf env s w).1 = (false, some m) := hfail
          simp only [validateLoop]
          rcases hv : validate_pdf env s w with ⟨⟨ok, msg⟩, w1, s1⟩
          rw [hv] at hfail0
          have hfail2 : (ok, msg) = (false, some m) := hfail0
          injection hfail2 with hok hmsg
          subst hok hmsg
          refine ⟨_, _, rfl, ?_, ?_⟩
          · have h1 := (validate_pdf_world_inv env s w).1
            rw [hv] at h1
            exact h1
          · have h2 := (validate_pdf_world_inv env s w).2
            rw [hv] at h2
            exact h2
      | i' + 1 =>
          have hi' : i' < rest.length := by
            simp only [List.length_cons] at hi; omega
          have hhead : (validate_pdf env s w).1.1 = true := by
            have := hprev 0 (by omega)
            simpa using this
          rcases hv : validate_pdf env s w with ⟨⟨ok, msg⟩, w1, s1⟩
          rw [hv] at hhead
          simp only at hhead
          subst hhead
          have hwfs : w1.fs = w.fs := by
            have := (validate_pdf_world_inv env s w).1
            rw [hv] at this; exact this
          have hwapp : w1.appended = w.appended := by
            have := (validate_pdf_world_inv env s w).2
            rw [hv] at this; exact this
          have hfail' : (validate_pdf env (rest.get ⟨i', hi'⟩) w1).1 =
              (false, some m) := by
            rw [validate_pdf_outcome_fs_only env _ w1 w hwfs]
            simpa using hfail
          have hprev' : ∀ j (hj : j < i'),
              (validate_pdf env (rest.get ⟨j, by omega⟩) w1).1.1 = true := by
            intro j hj
            rw [validate_pdf_outcome_fs_only env _ w1 w hwfs]
            have := hprev (j + 1) (by omega)
            simpa using this
          obtain ⟨w', srcs', heq, hfs, happ⟩ :=
            ih i' hi' w1 (k + 1) hfail' hprev'
          refine ⟨w', s1 :: srcs', ?_, hfs.trans hwfs, happ.trans hwapp⟩
          simp only [validateLoop, hv, if_true, heq]
          have : k + 1 + i' = k + (i' + 1) := by omega
          rw [this]

/-- C5: when some input to merge fails validation — `i` the first failing
index — merge returns a failure reporting that input's 1-based index and its
validation message, with no input consumed by the delegate writer and no
filesystem write performed. -/
theorem c5_merge_validates_all_first (env : Env) (w : World) (srcs : List Src)
    (out : Option String) (i : Nat) (m : String)
    (hlen : 2 ≤ srcs.length) (hi : i < srcs.length)
    (hfail : (validate_pdf env (srcs.get ⟨i, hi⟩) w).1 = (false, some m))
    (hprev : ∀ j (hj : j < i), (validate_pdf env (srcs.get ⟨j, by omega⟩) w).1.1 = true) :
    (merge env out w srcs).1 =
      OpResult.failure ("Validation failed for PDF #" ++ toString (i + 1) ++ ": " ++ m)
    ∧ (merge env out w srcs).2.1.appended = w.appended
    ∧ (merge env out w srcs).2.1.fs = w.fs := by
  obtain ⟨w', srcs', heq, hfs, happ⟩ :=
    validateLoop_first_fail env m srcs i hi w 0 hfail hprev
  have h0 : ¬(srcs.length = 0) := by omega
  have h2 : ¬(srcs.length < 2) := by omega
  rw [Nat.zero_add] at heq
  simp [merge, mergeBody, h0, h2, heq, hfs, happ]

/-- Witness for C5: the second of three inputs is the first failure. -/
theorem c5_merge_validates_all_first_witness :
    (merge env0 none w0 [Src.buf pdfB, Src.other, Src.buf pdfB]).1 =
      OpResult.failure ("Validation failed for PDF #" ++ toString (1 + 1) ++ ": " ++
        "Unsupported file type")
    ∧ (merge env0 none w0 [Src.buf pdfB, Src.other, Src.buf pdfB]).2.1.appended =
        w0.appended
    ∧ (merge env0 none w0 [Src.buf pdfB, Src.other, Src.buf pdfB]).2.1.fs = w0.fs := by
  refine c5_merge_validates_all_first env0 w0 [Src.buf pdfB, Src.other, Src.buf pdfB]
    none 1 "Unsupported file type" (by decide) (by decide) (by decide) ?_
  intro j hj
  have hj0 : j = 0 := by omega
  subst hj0
  show (validate_pdf env0 (Src.buf pdfB) w0).1.1 = true
  decide

/-- Concatenating the size-`bs` chunks of a list, one per batch index below
`(length + bs - 1) / bs`, recovers the list. -/
theorem range_chunks_flatMap {α : Type} (bs : Nat) (hbs : 1 ≤ bs) :
    ∀ (k : Nat) (l : List α), k = (l.length + bs - 1) / bs →
      (List.range k).flatMap (fun i => (l.drop (bs * i)).take bs) = l := by
  intro k
  induction k with
  | zero =>
      intro l hk
      have h0 : l.length + bs - 1 < bs := (Nat.div_eq_zero_iff (by omega)).mp hk.symm
      have hl : l.length = 0 := by omega
      rw [List.length_eq_zero.mp hl]
      simp
  | succ k ih =>
      intro l hk
      have hlen1 : 1 ≤ l.length := by
        by_contra hc
        have hl0 : l.length = 0 := by omega
        rw [hl0] at hk
        have hz : (0 + bs - 1) / bs = 0 := (Nat.div_eq_zero_iff (by omega)).mpr (by omega)
        omega
      have hk2 : k = (l.length - 1) / bs := by
        have h1 : l.length + bs - 1 = (l.length - 1) + bs := by omega
        rw [h1, Nat.add_div_right _ (by omega)] at hk
        omega
      have hk' : k = ((l.drop bs).length + bs - 1) / bs := by
        rw [List.length_drop]
        rcases le_or_lt l.length bs with hle | hlt
        · have h2 : l.length - bs = 0 := by omega
          rw [h2]
          have h3 : (0 + bs - 1) / bs = 0 := (Nat.div_eq_zero_iff (by omega)).mpr (by omega)
          have h4 : (l.length - 1) / bs = 0 := (Nat.div_eq_zero_iff (by omega)).mpr (by omega)
          omega
        · have h2 : l.length - bs + bs - 1 = (l.length - bs - 1) + bs := by omega
          rw [h2, Nat.add_div_right _ (by omega), hk2]
          have h3 : l.length - 1 = (l.length - bs - 1) + bs := by omega
          rw [h3, Nat.add_div_right _ (by omega)]
      calc (List.range (k + 1)).flatMap (fun i => (l.drop (bs * i)).take bs)
          = (l.drop (bs * 0)).take bs ++
              (List.range k).flatMap (fun i => (l.drop (bs * (i + 1))).take bs) := by
            rw [List.range_succ_eq_map]
            simp [List.flatMap_map, Function.comp, Nat.succ_eq_add_one]
        _ = l.take bs ++
              (List.range k).flatMap (fun i => ((l.drop bs).drop (bs * i)).take bs) := by
            have hdd : ∀ i : Nat, l.drop (bs * (i + 1)) = (l.drop bs).drop (bs * i) := by
              intro i
              rw [List.drop_drop]
              congr 1
              ring
            simp only [Nat.mul_zero, List.drop_zero, hdd]
        _ = l.take bs ++ l.drop bs := by rw [ih (l.drop bs) hk']
        _ = l := List.take_append_drop bs l

/-- `range(0, n, b)` for a positive step, in closed Nat form. -/
theorem pythonRange_pos (n b : Nat) (hb : 1 ≤ b) :
    pythonRange 0 (n : Int) (b : Int) =
      .ok ((List.range ((n + b - 1) / b)).map
        (fun i : Nat => (0 : Int) + (b : Int) * (i : Int))) := by
  have hb0 : ¬((b : Int) = 0) := by exact_mod_cast (by omega : ¬(b = 0))
  have hbp : (0 : Int) < (b : Int) := by exact_mod_cast (by omega : 0 < b)
  simp only [pythonRange, hb0, if_false, hbp, if_true]
  congr 1
  unfold rangeUpLen
  rcases Nat.eq_zero_or_pos n with h0 | hpos
  · subst h0
    rw [if_pos (by omega)]
    have : (0 + b - 1) / b = 0 := (Nat.div_eq_zero_iff (by omega)).mpr (by omega)
    rw [this]
  · rw [if_neg (by exact_mod_cast (by omega : ¬(n ≤ 0)))]
    have e1 : ((n : Int) - 0 + (b : Int) - 1) = ((n + b - 1 : Nat) : Int) := by
      push_cast [Nat.cast_sub (by omega : 1 ≤ n + b)]
      ring
    rw [e1]
    have e3 : (((n + b - 1 : Nat) : Int) / ((b : Nat) : Int)).toNat = (n + b - 1) / b := by
      rw [show ((n + b - 1 : Nat) : Int) / ((b : Nat) : Int) =
        (((n + b - 1) / b : Nat) : Int) from rfl]
      exact Int.toNat_natCast _
    rw [e3]

/-- The batch slice `pages[batch_start : min(batch_start + b, total)]` at
batch index `i` is plain chunk `i`. -/
theorem islice_batch {α : Type} (pages : List α) (b i : Nat) :
    islice pages ((0 : Int) + (b : Int) * (i : Int))
        (min ((0 : Int) + (b : Int) * (i : Int) + (b : Int)) ((pages.length : Int)))
      = (pages.drop (b * i)).take b := by
  unfold islice
  have e1 : ((0 : Int) + (b : Int) * (i : Int)) = ((b * i : Nat) : Int) := by
    push_cast; ring
  have e2 : (min (((b * i : Nat) : Int) + (b : Int)) ((pages.length : Int)))
      = ((min (b * i + b) pages.length : Nat) : Int) := by
    push_cast; omega
  rw [e1, e2, Int.toNat_natCast, Int.toNat_natCast]
  rw [List.drop_take]
  refine List.take_eq_take.mpr ?_
  rw [List.length_drop]
  omega

/-- Composing a map into a flat map. -/
theorem map_flatMap_aux {α β γ : Type} (l : List α) (g : α → β) (F : β → List γ) :
    (l.map g).flatMap F = l.flatMap (fun x => F (g x)) := by
  induction l with
  | nil => rfl
  | cons x xs ih => simp only [List.map_cons, List.flatMap_cons, ih]

/-- For every positive batch size the batched extraction loop collects
exactly the per-page tables, page order then detection order — independent
of the batch size. -/
theorem extractTablesList_pos (pages : List PPage) (bs : Int) (hbs : 1 ≤ bs) :
    extractTablesList pages bs = .ok (pages.flatMap pageDFs) := by
  obtain ⟨b, rfl⟩ : ∃ b : Nat, bs = (b : Int) :=
    ⟨bs.toNat, (Int.toNat_of_nonneg (by omega)).symm⟩
  have hb : 1 ≤ b := by exact_mod_cast hbs
  unfold extractTablesList
  rw [pythonRange_pos pages.length b hb]
  simp only []
  congr 1
  rw [map_flatMap_aux]
  have hfun : ∀ i : Nat,
      (islice pages ((0 : Int) + (b : Int) * (i : Int))
        (min ((0 : Int) + (b : Int) * (i : Int) + (b : Int)) ((pages.length : Int)))).flatMap pageDFs
      = ((pages.drop (b * i)).take b).flatMap pageDFs := by
    intro i
    rw [islice_batch]
  simp only [hfun]
  rw [← List.flatMap_assoc]
  rw [range_chunks_flatMap b hb ((pages.length + b - 1) / b) pages rfl]

/-- The batched page loop decomposes into the flat map of the per-batch
tables, with the filesystem untouched (only log lines are added). -/
theorem batchStep_foldl (pages : List PPage) (bsz : Int) :
    ∀ (starts : List Int) (w : World) (acc : List DF),
      (starts.foldl (batchStep pages bsz) (w, acc)).2
        = acc ++ starts.flatMap (fun s =>
            (islice pages s (min (s + bsz) ((pages.length : Int)))).flatMap pageDFs)
      ∧ (starts.foldl (batchStep pages bsz) (w, acc)).1.fs = w.fs := by
  intro starts
  induction starts with
  | nil => intro w acc; simp
  | cons s rest ih =>
      intro w acc
      simp only [List.foldl_cons, List.flatMap_cons, batchStep]
      constructor
      · rw [(ih _ _).1]
        simp
      · rw [(ih _ _).2]
        rfl

/-- For a positive batch size, the result and the filesystem effect of
`_extract_and_save_tables` depend only on the combined tables (all pages in
order) and the destination — not on the batch size. -/
theorem extractAndSaveTables_pos_spec (env : Env) (w : World) (pages : List PPage)
    (out : Option String) (bs : Int) (hbs : 1 ≤ bs) :
    (extractAndSaveTables env w pages out bs).1 =
      (if (pages.flatMap pageDFs).isEmpty then
        Except.ok (OpResult.failure "No tables found in the PDF")
      else match out with
        | some p => Except.ok (OpResult.okPath p)
        | none => Except.ok (OpResult.okBytes (env.excelOf (pages.flatMap pageDFs))))
    ∧ (extractAndSaveTables env w pages out bs).2.fs =
      (if (pages.flatMap pageDFs).isEmpty then w.fs
      else match out with
        | some p => fsWrite w.fs p (env.excelOf (pages.flatMap pageDFs))
        | none => w.fs) := by
  obtain ⟨b, rfl⟩ : ∃ b : Nat, bs = (b : Int) :=
    ⟨bs.toNat, (Int.toNat_of_nonneg (by omega)).symm⟩
  have hb : 1 ≤ b := by exact_mod_cast hbs
  have hX := extractTablesList_pos pages (b : Int) hbs
  unfold extractTablesList at hX
  rw [pythonRange_pos pages.length b hb] at hX
  simp only [Except.ok.injEq] at hX
  unfold extractAndSaveTables
  rw [pythonRange_pos pages.length b hb]
  simp only []
  rcases hfold : (((List.range ((pages.length + b - 1) / b)).map
      (fun i : Nat => (0 : Int) + (b : Int) * (i : Int))).foldl
      (batchStep pages (b : Int))
      (w.addLog ("Processing PDF with " ++ toString pages.length ++ " pages"),
       [])) with ⟨wT, tables⟩
  have h2 := batchStep_foldl pages (b : Int)
    ((List.range ((pages.length + b - 1) / b)).map
      (fun i : Nat => (0 : Int) + (b : Int) * (i : Int)))
    (w.addLog ("Processing PDF with " ++ toString pages.length ++ " pages")) []
  rw [hfold] at h2
  have htab : tables = pages.flatMap pageDFs := by
    have := h2.1
    simp only [List.nil_append] at this
    rw [this, ← hX]
  have hfs : wT.fs = w.fs := h2.2
  subst htab
  constructor
  · by_cases he : (pages.flatMap pageDFs).isEmpty <;> rcases out with _ | p <;> simp [he]
  · by_cases he : (pages.flatMap pageDFs).isEmpty <;> rcases out with _ | p <;>
      simp [he, World.addLog, hfs]

/-- C6: for any two positive batch sizes, convert-to-excel's batched page
loop extracts the same tables in the same order, returns the same result,
and leaves the same filesystem — batching changes only log granularity. -/
theorem c6_batch_size_irrelevant (env : Env) (w : World) (pages : List PPage)
    (out : Option String) (bs1 bs2 : Int) (h1 : 1 ≤ bs1) (h2 : 1 ≤ bs2) :
    extractTablesList pages bs1 = extractTablesList pages bs2
    ∧ (extractAndSaveTables env w pages out bs1).1 =
        (extractAndSaveTables env w pages out bs2).1
    ∧ (extractAndSaveTables env w pages out bs1).2.fs =
        (extractAndSaveTables env w pages out bs2).2.fs := by
  refine ⟨?_, ?_, ?_⟩
  · rw [extractTablesList_pos pages bs1 h1, extractTablesList_pos pages bs2 h2]
  · rw [(extractAndSaveTables_pos_spec env w pages out bs1 h1).1,
      (extractAndSaveTables_pos_spec env w pages out bs2 h2).1]
  · rw [(extractAndSaveTables_pos_spec env w pages out bs1 h1).2,
      (extractAndSaveTables_pos_spec env w pages out bs2 h2).2]

/-- Witness for C6 at batch sizes 2 and 5 on four pages with tables. -/
theorem c6_batch_size_irrelevant_witness :
    extractTablesList pgsW 2 = extractTablesList pgsW 5
    ∧ (extractAndSaveTables env0 w0 pgsW none 2).1 =
        (extractAndSaveTables env0 w0 pgsW none 5).1
    ∧ (extractAndSaveTables env0 w0 pgsW none 2).2.fs =
        (extractAndSaveTables env0 w0 pgsW none 5).2.fs :=
  c6_batch_size_irrelevant env0 w0 pgsW none 2 5 (by decide) (by decide)

/-- `range(0, n, bs)` is empty for a negative step. -/
theorem pythonRange_neg (n : Nat) (bs : Int) (h : bs < 0) :
    pythonRange 0 (n : Int) bs = .ok [] := by
  unfold pythonRange rangeDownLen
  rw [if_neg (by omega), if_neg (by omega), if_pos (by exact_mod_cast Int.natCast_nonneg n)]
  simp

/-- With a negative batch size the batched loop runs zero batches and
collects zero tables. -/
theorem extractTablesList_neg (pages : List PPage) (bs : Int) (h : bs < 0) :
    extractTablesList pages bs = .ok [] := by
  unfold extractTablesList
  rw [pythonRange_neg pages.length bs h]
  rfl

/-- With a negative batch size `_extract_and_save_tables` reports no tables
found, whatever the pages contain. -/
theorem extractAndSaveTables_neg (env : Env) (w : World) (pages : List PPage)
    (out : Option String) (bs : Int) (h : bs < 0) :
    (extractAndSaveTables env w pages out bs).1 =
      .ok (OpResult.failure "No tables found in the PDF") := by
  unfold extractAndSaveTables
  rw [pythonRange_neg pages.length bs h]
  simp

/-- With batch size zero the iteration raises the `range` ValueError. -/
theorem extractAndSaveTables_zero (env : Env) (w : World) (pages : List PPage)
    (out : Option String) :
    (extractAndSaveTables env w pages out 0).1 =
      .error "range() arg 3 must not be zero" := by
  unfold extractAndSaveTables pythonRange
  simp

/-- C10: for a valid byte-buffer input, a batch size ≤ 0 makes
convert-to-excel process zero pages and extract zero tables, returning a
Failure: "No tables found in the PDF" for a negative batch size (even when
the pages do contain tables), and the converted `range` ValueError message
for batch size zero. -/
theorem c10_nonpositive_batch_size (env : Env) (w : World) (b : Bytes)
    (pages : List PPage) (out : Option String) (bs : Int)
    (hmime : env.mimeOf ((b.take 1024).take 1024) = "application/pdf")
    (hsize : b.length ≤ MAX_FILE_SIZE)
    (hopen : env.plumberOpen b = .ok pages) :
    (bs < 0 → extractTablesList pages bs = .ok []
      ∧ (convertExcel env out bs w (Src.buf b)).1 =
          OpResult.failure "No tables found in the PDF")
    ∧ (bs = 0 → extractTablesList pages bs = .error "range() arg 3 must not be zero"
      ∧ (convertExcel env out bs w (Src.buf b)).1 =
          OpResult.failure
            "An error occurred during PDF to Excel conversion: range() arg 3 must not be zero") := by
  have hval : validate_pdf env (Src.buf b) w = ((true, none), w, Src.buf b) := by
    simp [validate_pdf, hsize, hmime]
  constructor
  · intro hneg
    refine ⟨extractTablesList_neg pages bs hneg, ?_⟩
    have hex := extractAndSaveTables_neg env w pages out bs hneg
    rcases hfull : extractAndSaveTables env w pages out bs with ⟨r, wE⟩
    rw [hfull] at hex
    simp only at hex
    subst hex
    simp [convertExcel, convertExcelBody, hval, hopen, hfull]
  · intro hzero
    subst hzero
    refine ⟨by unfold extractTablesList pythonRange; simp, ?_⟩
    have hex := extractAndSaveTables_zero env w pages out
    rcases hfull : extractAndSaveTables env w pages out 0 with ⟨r, wE⟩
    rw [hfull] at hex
    simp only at hex
    subst hex
    simp [convertExcel, convertExcelBody, hval, hopen, hfull]

/-- Witness for C10 at batch sizes −1 and 0 on pages with tables. -/
theorem c10_nonpositive_batch_size_witness :
    (extractTablesList pgsW (-1) = .ok []
      ∧ (convertExcel envE none (-1) w0 (Src.buf pdfB)).1 =
          OpResult.failure "No tables found in the PDF")
    ∧ (extractTablesList pgsW 0 = .error "range() arg 3 must not be zero"
      ∧ (convertExcel envE none 0 w0 (Src.buf pdfB)).1 =
          OpResult.failure
            "An error occurred during PDF to Excel conversion: range() arg 3 must not be zero") :=
  ⟨(c10_nonpositive_batch_size envE w0 pdfB pgsW none (-1) rfl (by decide) rfl).1
      (by decide),
   (c10_nonpositive_batch_size envE w0 pdfB pgsW none 0 rfl (by decide) rfl).2 rfl⟩

/-- Looking up after a removal: the removed path is gone, others are
untouched. -/
theorem fsLookup_fsRemove (fs : FS) (q p : String) :
    fsLookup (fsRemove fs q) p = if p = q then none else fsLookup fs p := by
  induction fs with
  | nil => unfold fsRemove fsLookup; by_cases h : p = q <;> simp [h]
  | cons e fs ih =>
      rcases e with ⟨a, c⟩
      by_cases haq : a = q <;> by_cases hap : a = p <;> by_cases hpq : p = q <;>
        simp_all [fsRemove, fsLookup, List.filter_cons, List.find?_cons]

/-- Looking up after a write: the written path has the new contents, others
are untouched. -/
theorem fsLookup_fsWrite (fs : FS) (q p : String) (b : Bytes) :
    fsLookup (fsWrite fs q b) p = if p = q then some b else fsLookup fs p := by
  show fsLookup ((q, b) :: fsRemove fs q) p = _
  by_cases h : p = q
  · subst h; simp [fsLookup, List.find?_cons]
  · have h2 := fsLookup_fsRemove fs q p
    rw [if_neg h] at h2
    unfold fsLookup at h2 ⊢
    rw [List.find?_cons_of_neg _ (by simp [Ne.symm h]), if_neg h]
    exact h2

/-- The bookkeeping of one best-effort removal: the attempt is always
recorded, the created list is untouched, and the file disappears exactly
when the removal does not fail. -/
theorem tryRemove_removals (env : Env) (w : World) (p m : String) :
    (tryRemove env w p m).removals = w.removals ++ [p] := by
  unfold tryRemove
  by_cases h : env.removeFails p <;> simp [h, World.addLog]

/-- `tryRemove` leaves the created list untouched. -/
theorem tryRemove_created (env : Env) (w : World) (p m : String) :
    (tryRemove env w p m).created = w.created := by
  unfold tryRemove
  by_cases h : env.removeFails p <;> simp [h, World.addLog]

/-- `tryRemove` removes the file exactly when the removal does not fail. -/
theorem tryRemove_fs (env : Env) (w : World) (p m : String) :
    (tryRemove env w p m).fs =
      (if env.removeFails p then w.fs else fsRemove w.fs p) := by
  unfold tryRemove
  by_cases h : env.removeFails p <;> simp [h, World.addLog]

/-- Validation ignores the removal oracle. -/
theorem validate_pdf_removeFails (env : Env) (f : String → Bool) (s : Src)
    (w : World) :
    validate_pdf { env with removeFails := f } s w = validate_pdf env s w := by
  cases s <;> rfl

/-- Validation never changes the temp-file bookkeeping. -/
theorem validate_pdf_world_inv2 (env : Env) (s : Src) (w : World) :
    (validate_pdf env s w).2.1.created = w.created
    ∧ (validate_pdf env s w).2.1.removals = w.removals
    ∧ (validate_pdf env s w).2.1.tempCtr = w.tempCtr := by
  cases s <;> simp only [validate_pdf] <;> (repeat' split) <;> simp

/-- A path input that passed validation exists in the filesystem. -/
theorem validate_pdf_path_content (env : Env) (p : String) (w : World)
    (h : (validate_pdf env (Src.path p) w).1.1 = true) :
    ∃ c, fsLookup w.fs p = some c := by
  have h' : ((match fsLookup w.fs p with
      | none => ((false, some ("File not found: " ++ p)),
          { w with fsReads := w.fsReads ++ [p] }, Src.path p)
      | some content =>
          if content.length ≤ MAX_FILE_SIZE then
            if env.mimeOf ((content.take 1024).take 1024) == "application/pdf" then
              ((true, none), { w with fsReads := w.fsReads ++ [p] }, Src.path p)
            else ((false, some "File is not a valid PDF"),
              { w with fsReads := w.fsReads ++ [p] }, Src.path p)
          else ((false, some sizeExceededMsg),
            { w with fsReads := w.fsReads ++ [p] }, Src.path p)).1.1 : Bool) = true := h
  rcases hx : fsLookup w.fs p with _ | c
  · rw [hx] at h'
    simp at h'
  · exact ⟨c, rfl⟩

/-- After one best-effort removal that does not fail, the path is absent. -/
theorem cleanup_one_fs (env : Env) (W : World) (t m : String)
    (hpf : env.removeFails t = false) :
    fsLookup (tryRemove env W t m).fs t = none := by
  rw [tryRemove_fs, if_neg (by simp [hpf]), fsLookup_fsRemove]
  simp

/-- After two chained best-effort removals, any of the two paths whose
removal does not fail is absent. -/
theorem cleanup_two_fs (env : Env) (W : World) (t d p m1 m2 : String)
    (hpf : env.removeFails p = false) (hcase : p = t ∨ p = d) :
    fsLookup (tryRemove env (tryRemove env W t m1) d m2).fs p = none := by
  rcases hcase with h | h
  · rw [h] at hpf ⊢
    rw [tryRemove_fs]
    by_cases hd : env.removeFails d
    · rw [if_pos hd]
      exact cleanup_one_fs env W t m1 hpf
    · rw [if_neg hd, fsLookup_fsRemove]
      split
      · rfl
      · exact cleanup_one_fs env W t m1 hpf
  · rw [h] at hpf ⊢
    rw [tryRemove_fs, if_neg (by simp [hpf]), fsLookup_fsRemove]
    simp

/-- The post-temp-creation tail of convert-to-word: (1) removal is attempted
for the temporary PDF on every exit path, and additionally for the temporary
DOCX when no destination was given (which is also recorded as created);
(2) the returned value never depends on whether removals fail; (3) any of
those temporaries whose removal does not fail is absent from the final
filesystem. -/
theorem convertWordRest_spec (env : Env) (out : Option String) (sp : Int)
    (ep : Option Int) (w : World) (src : Src) (t : String) :
    ((convertWordRest env out sp ep w src t).2.1.created,
     (convertWordRest env out sp ep w src t).2.1.removals) =
      (match out with
       | some _ => (w.created, w.removals ++ [t])
       | none => (w.created ++ [env.tempName w.tempCtr],
                  w.removals ++ [t, env.tempName w.tempCtr]))
    ∧ (∀ f g : String → Bool,
        (convertWordRest { env with removeFails := f } out sp ep w src t).1 =
          (convertWordRest { env with removeFails := g } out sp ep w src t).1)
    ∧ (∀ p, env.removeFails p = false →
        (p = t ∨ (out = none ∧ p = env.tempName w.tempCtr)) →
        fsLookup (convertWordRest env out sp ep w src t).2.1.fs p = none) := by
  rcases out with _ | q
  · -- out = none: a fresh temp DOCX is created and cleaned up as well
    unfold convertWordRest
    simp only []
    rcases hx : fsLookup (fsWrite w.fs (env.tempName w.tempCtr) []) t with _ | pdfBytes
    · refine ⟨?_, ?_, ?_⟩
      · simp [hx, tryRemove_created, tryRemove_removals, World.addLog]
      · intro f g
        simp [hx]
      · intro p hpf hcase
        simp [World.addLog, hx]
        have hcase2 : p = t ∨ p = env.tempName w.tempCtr := by tauto
        exact cleanup_two_fs env _ t (env.tempName w.tempCtr) p _ _ hpf hcase2
    · rcases hp : env.pdf2docx pdfBytes sp ep with e | docxBytes
      · refine ⟨?_, ?_, ?_⟩
        · simp [hx, hp, tryRemove_created, tryRemove_removals, World.addLog]
        · intro f g
          simp [hx, hp]
        · intro p hpf hcase
          simp [World.addLog, hx, hp]
          have hcase2 : p = t ∨ p = env.tempName w.tempCtr := by tauto
          exact cleanup_two_fs env _ t (env.tempName w.tempCtr) p _ _ hpf hcase2
      · refine ⟨?_, ?_, ?_⟩
        · simp [hx, hp, tryRemove_created, tryRemove_removals, World.addLog]
        · intro f g
          simp [hx, hp]
        · intro p hpf hcase
          simp [World.addLog, hx, hp]
          have hcase2 : p = t ∨ p = env.tempName w.tempCtr := by tauto
          exact cleanup_two_fs env _ t (env.tempName w.tempCtr) p _ _ hpf hcase2
  · -- out = some q: only the temporary PDF is cleaned up
    unfold convertWordRest
    simp only []
    rcases hx : fsLookup w.fs t with _ | pdfBytes
    · refine ⟨?_, ?_, ?_⟩
      · simp [hx, tryRemove_created, tryRemove_removals, World.addLog]
      · intro f g
        simp [hx]
      · intro p hpf hcase
        simp [World.addLog, hx]
        have hpt : p = t := by
          rcases hcase with h | ⟨hno, _⟩
          · exact h
          · exact absurd hno (by simp)
        rw [hpt] at hpf ⊢
        exact cleanup_one_fs env _ t _ hpf
    · rcases hp : env.pdf2docx pdfBytes sp ep with e | docxBytes
      · refine ⟨?_, ?_, ?_⟩
        · simp [hx, hp, tryRemove_created, tryRemove_removals, World.addLog]
        · intro f g
          simp [hx, hp]
        · intro p hpf hcase
          simp [World.addLog, hx, hp]
          have hpt : p = t := by
            rcases hcase with h | ⟨hno, _⟩
            · exact h
            · exact absurd hno (by simp)
          rw [hpt] at hpf ⊢
          exact cleanup_one_fs env _ t _ hpf
      · refine ⟨?_, ?_, ?_⟩
        · simp [hx, hp, tryRemove_created, tryRemove_removals, World.addLog]
        · intro f g
          simp [hx, hp]
        · intro p hpf hcase
          simp [World.addLog, hx, hp]
          have hpt : p = t := by
            rcases hcase with h | ⟨hno, _⟩
            · exact h
            · exact absurd hno (by simp)
          rw [hpt] at hpf ⊢
          exact cleanup_one_fs env _ t _ hpf

/-- Updating the removal oracle leaves the temp-name oracle unchanged. -/
theorem env_update_tempName (env : Env) (f : String → Bool) :
    ({ env with removeFails := f } : Env).tempName = env.tempName := rfl

/-- Updating the removal oracle leaves the conversion oracle unchanged. -/
theorem env_update_pdf2docx (env : Env) (f : String → Bool) :
    ({ env with removeFails := f } : Env).pdf2docx = env.pdf2docx := rfl

/-- The validator returns a byte-buffer input and the world unchanged. -/
theorem validate_pdf_buf_shape (env : Env) (b : Bytes) (w : World) :
    ∃ ok msg, validate_pdf env (Src.buf b) w = ((ok, msg), w, Src.buf b) := by
  unfold validate_pdf
  dsimp only
  (repeat' split) <;> exact ⟨_, _, rfl⟩

/-- The validator returns a path input unchanged, recording only the read. -/
theorem validate_pdf_path_shape (env : Env) (p : String) (w : World) :
    ∃ ok msg, validate_pdf env (Src.path p) w =
      ((ok, msg), { w with fsReads := w.fsReads ++ [p] }, Src.path p) := by
  unfold validate_pdf
  dsimp only
  (repeat' split) <;> exact ⟨_, _, rfl⟩

/-- Convert-to-word's body either returns before creating the temporary PDF
copy (temp bookkeeping untouched), or reduces to `convertWordRest` on a
world that records exactly one more created temp file. -/
theorem convertWordBody_cases (env : Env) (out : Option String) (sp : Int)
    (ep : Option Int) (w : World) (src : Src) :
    ((convertWordBody env out sp ep w src).2.1.created = w.created
      ∧ (convertWordBody env out sp ep w src).2.1.removals = w.removals)
    ∨ (∃ (w1 : World) (src1 : Src),
        w1.created = w.created ++ [env.tempName w.tempCtr]
        ∧ w1.removals = w.removals
        ∧ w1.tempCtr = w.tempCtr + 1
        ∧ convertWordBody env out sp ep w src =
            convertWordRest env out sp ep w1 src1 (env.tempName w.tempCtr)) := by
  cases src with
  | other => left; constructor <;> rfl
  | buf b =>
      obtain ⟨ok, msg, hv⟩ := validate_pdf_buf_shape env b w
      unfold convertWordBody
      rw [hv]
      cases ok
      · left
        constructor <;> simp [World.addLog]
      · right
        exact ⟨_, Src.buf b, by simp, by simp, by simp, rfl⟩
  | stream s =>
      obtain ⟨ok, msg, s1, hv, _⟩ := validate_pdf_stream_shape env w s
      unfold convertWordBody
      rw [hv]
      cases ok
      · left
        constructor <;> simp [World.addLog]
      · right
        exact ⟨_, _, by simp, by simp, by simp, rfl⟩
  | path p =>
      obtain ⟨ok, msg, hv⟩ := validate_pdf_path_shape env p w
      unfold convertWordBody
      rw [hv]
      cases ok
      · left
        constructor <;> simp [World.addLog]
      · right
        have hok : (validate_pdf env (Src.path p) w).1.1 = true := by rw [hv]
        obtain ⟨c, hc⟩ := validate_pdf_path_content env p w hok
        rcases hlk : fsLookup (fsWrite w.fs (env.tempName w.tempCtr) []) p
          with _ | c2
        · rw [fsLookup_fsWrite] at hlk
          split at hlk
          · exact absurd hlk (by simp)
          · rw [hc] at hlk
            exact absurd hlk (by simp)
        · refine ⟨_, Src.path p, ?_, ?_, ?_, by simp only [hlk, if_true]; rfl⟩ <;> simp

/-- Convert-to-word's body returns the same value whatever the removal
oracle does — removal failures are never escalated into the result. -/
theorem convertWordBody_removeFails (env : Env) (f g : String → Bool)
    (out : Option String) (sp : Int) (ep : Option Int) (w : World) (src : Src) :
    (convertWordBody { env with removeFails := f } out sp ep w src).1 =
      (convertWordBody { env with removeFails := g } out sp ep w src).1 := by
  unfold convertWordBody
  rw [validate_pdf_removeFails env f src w, validate_pdf_removeFails env g src w]
  rcases hv : validate_pdf env src w with ⟨⟨ok, msg⟩, w1, src1⟩
  cases ok
  · rfl
  · simp only [env_update_tempName, env_update_pdf2docx]
    cases src1 with
    | other => rfl
    | buf b => exact (convertWordRest_spec env out sp ep _ _ _).2.1 f g
    | stream s => exact (convertWordRest_spec env out sp ep _ _ _).2.1 f g
    | path p =>
        rcases hlk : fsLookup (fsWrite w1.fs (env.tempName w1.tempCtr) []) p
          with _ | c2
        · simp only [hlk]
        · simp only [hlk]
          exact (convertWordRest_spec env out sp ep _ _ _).2.1 f g

/-- The boundary handler preserves the body's world bookkeeping (it only
adds a log line on the exception path). -/
theorem convertWord_world_books (env : Env) (out : Option String) (sp : Int)
    (ep : Option Int) (w : World) (src : Src) :
    (convertWord env out sp ep w src).2.1.created =
      (convertWordBody env out sp ep w src).2.1.created
    ∧ (convertWord env out sp ep w src).2.1.removals =
      (convertWordBody env out sp ep w src).2.1.removals
    ∧ (convertWord env out sp ep w src).2.1.fs =
      (convertWordBody env out sp ep w src).2.1.fs := by
  unfold convertWord
  rcases hb : convertWordBody env out sp ep w src with ⟨r, w1, s1⟩
  cases r <;> simp [World.addLog]

/-- The operation's returned value never depends on whether removals fail. -/
theorem convertWord_fst_removeFails (env : Env) (f g : String → Bool)
    (out : Option String) (sp : Int) (ep : Option Int) (w : World) (src : Src) :
    (convertWord { env with removeFails := f } out sp ep w src).1 =
      (convertWord { env with removeFails := g } out sp ep w src).1 := by
  have hb := convertWordBody_removeFails env f g out sp ep w src
  unfold convertWord
  rcases h1 : convertWordBody { env with removeFails := f } out sp ep w src
    with ⟨r1, w1, s1⟩
  rcases h2 : convertWordBody { env with removeFails := g } out sp ep w src
    with ⟨r2, w2, s2⟩
  rw [h1, h2] at hb
  have hr : r1 = r2 := hb
  subst hr
  cases r1 <;> rfl

/-- C4 amended: once the temporary on-disk PDF copy has been created,
`os.remove` is attempted on it before the call returns on every exit path
(success, failure or raised delegate exception), and likewise on the
temporary destination DOCX when no destination path was given; each such
temporary whose removal does not fail is gone from the filesystem; removal
failures never alter the operation's returned value — but they are silently
swallowed, not logged. -/
theorem c4_amended_temp_cleanup (env : Env) (w : World) (src : Src)
    (out : Option String) (sp : Int) (ep : Option Int)
    (hc : w.created = []) (hr : w.removals = []) :
    (convertWord env out sp ep w src).2.1.removals =
      (convertWord env out sp ep w src).2.1.created
    ∧ (∀ f g : String → Bool,
        (convertWord { env with removeFails := f } out sp ep w src).1 =
          (convertWord { env with removeFails := g } out sp ep w src).1)
    ∧ (∀ p, p ∈ (convertWord env out sp ep w src).2.1.created →
        env.removeFails p = false →
        fsLookup (convertWord env out sp ep w src).2.1.fs p = none) := by
  obtain ⟨hcr, hrm, hfs⟩ := convertWord_world_books env out sp ep w src
  refine ⟨?_, ?_, ?_⟩
  · rw [hcr, hrm]
    rcases convertWordBody_cases env out sp ep w src with ⟨h1, h2⟩ |
      ⟨w1, s1, hw1c, hw1r, hwt, heq⟩
    · rw [h1, h2, hc, hr]
    · rw [heq]
      have hspec := (convertWordRest_spec env out sp ep w1 s1
        (env.tempName w.tempCtr)).1
      rcases out with _ | q
      · simp only at hspec
        have h1 := congrArg Prod.fst hspec
        have h2 := congrArg Prod.snd hspec
        simp only at h1 h2
        rw [h1, h2, hw1c, hw1r, hc, hr]
        simp
      · simp only at hspec
        have h1 := congrArg Prod.fst hspec
        have h2 := congrArg Prod.snd hspec
        simp only at h1 h2
        rw [h1, h2, hw1c, hw1r, hc, hr]
  · intro f g
    exact convertWord_fst_removeFails env f g out sp ep w src
  · intro p hpmem hpf
    rw [hfs]
    rw [hcr] at hpmem
    rcases convertWordBody_cases env out sp ep w src with ⟨h1, h2⟩ |
      ⟨w1, s1, hw1c, hw1r, hwt, heq⟩
    · rw [h1, hc] at hpmem
      exact absurd hpmem (by simp)
    · rw [heq] at hpmem ⊢
      have hspec := (convertWordRest_spec env out sp ep w1 s1
        (env.tempName w.tempCtr)).1
      have hcond : p = env.tempName w.tempCtr ∨
          (out = none ∧ p = env.tempName w1.tempCtr) := by
        rcases out with _ | q
        · simp only at hspec
          have h1 := congrArg Prod.fst hspec
          simp only at h1
          rw [h1, hw1c, hc] at hpmem
          simp at hpmem
          rcases hpmem with h | h
          · exact .inl h
          · exact .inr ⟨rfl, h⟩
        · simp only at hspec
          have h1 := congrArg Prod.fst hspec
          simp only at h1
          rw [h1, hw1c, hc] at hpmem
          simp at hpmem
          exact .inl hpmem
      exact (convertWordRest_spec env out sp ep w1 s1
        (env.tempName w.tempCtr)).2.2 p hpf hcond

/-- C4 counterexample: with every `os.remove` failing, convert-to-word still
returns its success value, both temporary files are still present on disk at
return (so they were not removed), yet the log contains no entry about
either removal — removal failures are silently swallowed, not logged (the
only removal-related logger call in the code is the success-path debug
line). -/
theorem c4_counterexample :
    (convertWord envC4 none 0 none w0 (Src.buf pdfB)).1 = OpResult.okBytes [1, 2, 3]
    ∧ (convertWord envC4 none 0 none w0 (Src.buf pdfB)).2.1.removals =
        ["/tmp/t0", "/tmp/t1"]
    ∧ fsLookup (convertWord envC4 none 0 none w0 (Src.buf pdfB)).2.1.fs
        "/tmp/t0" = some pdfB
    ∧ fsLookup (convertWord envC4 none 0 none w0 (Src.buf pdfB)).2.1.fs
        "/tmp/t1" = some [1, 2, 3]
    ∧ (convertWord envC4 none 0 none w0 (Src.buf pdfB)).2.1.log =
        ["Converting PDF to Word (pages 0 to end)",
         "PDF to Word conversion completed successfully"] := by
  refine ⟨rfl, rfl, rfl, rfl, rfl⟩

/-- Witness for C4 amended on a concrete run: both temporaries are created,
both removals attempted, the result is removal-independent, and with a
never-failing remover both files are gone. -/
theorem c4_amended_temp_cleanup_witness :
    (convertWord env0 none 0 none w0 (Src.buf pdfB)).2.1.removals =
      (convertWord env0 none 0 none w0 (Src.buf pdfB)).2.1.created
    ∧ fsLookup (convertWord env0 none 0 none w0 (Src.buf pdfB)).2.1.fs
        "/tmp/t0" = none :=
  ⟨(c4_amended_temp_cleanup env0 w0 (Src.buf pdfB) none 0 none rfl rfl).1,
   (c4_amended_temp_cleanup env0 w0 (Src.buf pdfB) none 0 none rfl rfl).2.2
     "/tmp/t0" (by decide) rfl⟩

end PDFToolkit
